import Mathlib

/-!
Shallow embedding of the Screen-mirroring-management-system source
(`src/code.py`): the `DragResizeWidget` drag/resize state machine and its
concrete subclasses, the config-file URL store
(`read_urls_from_config` / `write_url_to_config` / `UrlSelectionDialog.add_url`),
the `FullScreenApp` shell (stacking and key handling) and the media-file
classification in `FullScreenApp.setup_media`.

Coordinates and sizes are Python ints, embedded as `Int`.  The config file is
embedded as its list of lines (each line a `String` without the trailing
newline, as produced by splitting the file at newlines); `file.write(url+"\n")`
appends one line.  Geometry calls on the inner payload
(`browser/label/video_widget.setGeometry(5, 5, w-10, h-10)`) are recorded in a
log, newest first, so that claims about when the content-geometry callback
fires can be stated.
-/

/-- Mouse buttons, as far as `mousePressEvent` distinguishes them
(`event.button() == Qt.MouseButton.LeftButton`). -/
inductive MouseButton where
  | left
  | right
  | middle
deriving DecidableEq, Repr

/-- State of a `DragResizeWidget` (src/code.py lines 47-93): origin `(x, y)`,
size `(w, h)`, the two interaction flags, the recorded global pointer position
`drag_position`, and a log of the rectangles passed to the payload geometry
update (`update_content_geometry` in the concrete subclasses sets the payload
geometry to `(5, 5, width()-10, height()-10)`), newest first. -/
structure DragResizeWidget where
  x : Int
  y : Int
  w : Int
  h : Int
  dragging : Bool
  resizing : Bool
  drag_position : Int × Int
  geomCalls : List (Int × Int × Int × Int)
deriving DecidableEq, Repr

/-- `update_content_geometry` as implemented by every concrete subclass
(`BrowserWidget` line 106, `ImageWidget` line 131, `VideoWidget` line 169):
set the payload geometry to `(5, 5, width()-10, height()-10)`; recorded in the
log. -/
def DragResizeWidget.update_content_geometry (s : DragResizeWidget) : DragResizeWidget :=
  { s with geomCalls := (5, 5, s.w - 10, s.h - 10) :: s.geomCalls }

/-- `DragResizeWidget.__init__` (lines 50-57): size 800×600, both flags false,
`drag_position = QPoint()` i.e. `(0, 0)`.  The widget position is a parameter
(the shell later calls `move`; Qt's default is `(0, 0)`). -/
def DragResizeWidget.mk0 (x y : Int) : DragResizeWidget :=
  { x := x, y := y, w := 800, h := 600,
    dragging := false, resizing := false,
    drag_position := (0, 0), geomCalls := [] }

/-- Constructor of the concrete subclasses (`BrowserWidget.__init__` lines
99-103, `ImageWidget.__init__` lines 112-119): base init then one call to
`update_content_geometry` with the initial size. -/
def DragResizeWidget.mkConcrete (x y : Int) : DragResizeWidget :=
  (DragResizeWidget.mk0 x y).update_content_geometry

/-- `is_on_border` (lines 85-89): `pos.x() >= width() - 10 and
pos.y() >= height() - 10`. -/
def DragResizeWidget.is_on_border (s : DragResizeWidget) (pos : Int × Int) : Bool :=
  decide (s.w - 10 ≤ pos.1 ∧ s.h - 10 ≤ pos.2)

/-- `mousePressEvent` (lines 59-66): only the left button acts; on the border
region set `resizing`, otherwise set `dragging` and record the global pointer
position.  `pos` is the widget-local position (`event.pos()`), `gpos` the
global one (`event.globalPosition().toPoint()`). -/
def DragResizeWidget.mousePressEvent (s : DragResizeWidget) (button : MouseButton)
    (pos gpos : Int × Int) : DragResizeWidget :=
  if button = MouseButton.left then
    if s.is_on_border pos then
      { s with resizing := true }
    else
      { s with dragging := true, drag_position := gpos }
  else s

/-- `mouseMoveEvent` (lines 68-78): while `dragging`, translate the origin by
`global - drag_position` and update `drag_position`; else while `resizing`,
resize to `(max 100 pos.x, max 100 pos.y)` and call
`update_content_geometry`; else do nothing. -/
def DragResizeWidget.mouseMoveEvent (s : DragResizeWidget)
    (pos gpos : Int × Int) : DragResizeWidget :=
  if s.dragging then
    { s with x := s.x + (gpos.1 - s.drag_position.1),
             y := s.y + (gpos.2 - s.drag_position.2),
             drag_position := gpos }
  else if s.resizing then
    ({ s with w := max 100 pos.1, h := max 100 pos.2 }).update_content_geometry
  else s

/-- `mouseReleaseEvent` (lines 80-83): unconditionally clear both flags. -/
def DragResizeWidget.mouseReleaseEvent (s : DragResizeWidget) : DragResizeWidget :=
  { s with dragging := false, resizing := false }

/-- A pointer event, as delivered to the widget's three mouse handlers. -/
inductive PEvent where
  | press (button : MouseButton) (pos gpos : Int × Int)
  | move (pos gpos : Int × Int)
  | release
deriving DecidableEq, Repr

/-- Dispatch one pointer event to the corresponding handler. -/
def DragResizeWidget.step (s : DragResizeWidget) : PEvent → DragResizeWidget
  | PEvent.press b p g => s.mousePressEvent b p g
  | PEvent.move p g => s.mouseMoveEvent p g
  | PEvent.release => s.mouseReleaseEvent

/-- Run a sequence of pointer events from a state. -/
def DragResizeWidget.run (s : DragResizeWidget) (evts : List PEvent) : DragResizeWidget :=
  evts.foldl DragResizeWidget.step s

/-- The widget is Idle: neither dragging nor resizing. -/
def DragResizeWidget.isIdle (s : DragResizeWidget) : Prop :=
  s.dragging = false ∧ s.resizing = false

/-- Whitespace as Python's `str.strip()` removes it. -/
def isSpaceChar (c : Char) : Bool :=
  c == ' ' || c == '\t' || c == '\n' || c == '\r' || c == '\x0b' || c == '\x0c'

/-- Python's `str.strip()`: drop leading and trailing whitespace. -/
def pyStrip (s : String) : String :=
  ⟨(((s.data.dropWhile isSpaceChar).reverse).dropWhile isSpaceChar).reverse⟩

/-- ASCII lowering of one character, as Python's `str.lower()` acts on the
ASCII range (which covers every extension `setup_media` matches). -/
def charLower (c : Char) : Char :=
  if 'A' ≤ c ∧ c ≤ 'Z' then Char.ofNat (c.toNat + 32) else c

/-- Python's `str.lower()` on the ASCII range. -/
def pyLower (s : String) : String :=
  ⟨s.data.map charLower⟩

/-- Inner loop of `read_urls_from_config` (lines 25-36): for each line, strip
it, and append it to `urls` (also adding it to `seen`) when it is non-empty and
not yet seen.  In the source `seen` is a set that always holds exactly the
elements of `urls`; here it is a list. -/
def readUrlsLoop (urls seen : List String) : List String → List String
  | [] => urls
  | line :: rest =>
    let url := pyStrip line
    if url ≠ "" ∧ url ∉ seen then readUrlsLoop (urls ++ [url]) (url :: seen) rest
    else readUrlsLoop urls seen rest

/-- `read_urls_from_config` (lines 25-36) over the file's list of lines: keep
the stripped non-empty lines, first occurrence of each. -/
def read_urls_from_config (lines : List String) : List String :=
  readUrlsLoop [] [] lines

/-- `write_url_to_config` (lines 39-44): re-read the file; if `url` is not
among the deduplicated entries, append the line `url` (the source writes
`url + "\n"`). -/
def write_url_to_config (lines : List String) (url : String) : List String :=
  if url ∈ read_urls_from_config lines then lines else lines ++ [url]

/-- The address store: the persisted config file (as its list of lines) plus
the dialog's in-memory list `self.urls` (loaded by `setup_ui` line 186 as
`read_urls_from_config()`). -/
structure AddressStore where
  fileLines : List String
  urls : List String
deriving DecidableEq, Repr

/-- `UrlSelectionDialog.add_url` (lines 207-213) applied to an entered address
(`ok = True`): the guard `if ok and new_url:` makes an empty string a no-op;
otherwise `write_url_to_config(new_url)` runs and the in-memory list is
extended when the address is not already in it. -/
def AddressStore.add_url (st : AddressStore) (address : String) : AddressStore :=
  if address = "" then st
  else
    { fileLines := write_url_to_config st.fileLines address,
      urls := if address ∈ st.urls then st.urls else st.urls ++ [address] }

/-- `listAll` of the store: what `read_urls_from_config` returns on the
persisted file. -/
def AddressStore.listAll (st : AddressStore) : List String :=
  read_urls_from_config st.fileLines

/-- Media payload kinds chosen by `FullScreenApp.setup_media`. -/
inductive MediaKind where
  | image
  | video
deriving DecidableEq, Repr

/-- The image extensions of `setup_media` line 237. -/
def imageExts : List String := [".png", ".jpg", ".jpeg", ".bmp"]

/-- The video extensions of `setup_media` line 239. -/
def videoExts : List String := [".mp4", ".avi", ".mkv"]

/-- The classification in `FullScreenApp.setup_media` (lines 236-242), as a
function of the selected path's extension (`os.path.splitext(path)[1]`,
including the leading dot): lowercase it, match against the image set, then
the video set, otherwise return `None` (no media widget). -/
def setup_media_classify (ext : String) : Option MediaKind :=
  let e := pyLower ext
  if e ∈ imageExts then some MediaKind.image
  else if e ∈ videoExts then some MediaKind.video
  else none

/-- An effect the `FullScreenApp` shell performs on its windows, for stating
when stacking happens: `stackUnder below above` is `below.stackUnder(above)`. -/
inductive ShellEffect (α : Type) where
  | stackUnder (below above : α)
  | closeShell
  | reloadBrowser
deriving DecidableEq, Repr

/-- `FullScreenApp.adjust_window_stack` (lines 259-261): the stacking effects
it performs, given the two optional windows — `media.stackUnder(browser)`
exactly when both exist, nothing otherwise. -/
def adjust_window_stack {α : Type} (media browser : Option α) : List (ShellEffect α) :=
  match media, browser with
  | some m, some b => [ShellEffect.stackUnder m b]
  | _, _ => []

/-- The window-manipulating effects of `FullScreenApp.__init__` (lines
219-224) after the two windows are created: the single `adjust_window_stack`
call.  No other call site of `adjust_window_stack` exists in the source. -/
def fullScreenAppInitEffects {α : Type} (media browser : Option α) : List (ShellEffect α) :=
  adjust_window_stack media browser

/-- The keys `FullScreenApp.keyPressEvent` distinguishes. -/
inductive ShellKey where
  | f12
  | f5
  | other
deriving DecidableEq, Repr

/-- `FullScreenApp.keyPressEvent` (lines 263-267): F12 closes the shell; F5
reloads the browser when one exists; every other key does nothing.  These are
the only events the running shell handles itself. -/
def fullScreenAppKeyPressEvent {α : Type} (browser : Option α) (k : ShellKey) :
    List (ShellEffect α) :=
  match k with
  | ShellKey.f12 => [ShellEffect.closeShell]
  | ShellKey.f5 => match browser with
    | some _ => [ShellEffect.reloadBrowser]
    | none => []
  | ShellKey.other => []

/-- The three interaction states of the spec's state machine. -/
inductive InteractionState where
  | idle
  | draggingS
  | resizingS
deriving DecidableEq, Repr

/-- Read the spec-level interaction state off the widget's two flags.  The
flag combination `dragging ∧ resizing` corresponds to none of the three
states, hence `Option`. -/
def DragResizeWidget.interactionState (s : DragResizeWidget) : Option InteractionState :=
  match s.dragging, s.resizing with
  | false, false => some InteractionState.idle
  | true, false => some InteractionState.draggingS
  | false, true => some InteractionState.resizingS
  | true, true => none

/-! ## Definitions written from the spec's words, for refinement claims -/

/-- Spec-side dedup for `listAll()` ("skipping blank entries and collapsing
duplicates (first occurrence wins, order of first appearance preserved)"):
keep each entry not seen before, in order. -/
def keepFirsts (seen : List String) : List String → List String
  | [] => []
  | u :: us => if u ∈ seen then keepFirsts seen us else u :: keepFirsts (u :: seen) us

/-- Spec-side `listAll()` over the raw persisted lines: the non-blank
(trimmed) entries with duplicates collapsed, first occurrence winning, order
of first appearance preserved. -/
def listAllSpec (lines : List String) : List String :=
  keepFirsts [] ((lines.map pyStrip).filter (fun u => !(u == "")))

/-- A pointer-event sequence is well formed when no pointer-down is delivered
while the button is already down: presses and releases alternate (tracked by
the `down` flag).  This is the shape of every sequence a windowing system
actually delivers. -/
def wellFormedEvents (down : Bool) : List PEvent → Bool
  | [] => true
  | PEvent.press _ _ _ :: rest => !down && wellFormedEvents true rest
  | PEvent.release :: rest => wellFormedEvents false rest
  | PEvent.move _ _ :: rest => wellFormedEvents down rest

/-! ## Helper lemmas -/

/-- One pointer event keeps both size components at or above 100. -/
theorem step_size_floor (s : DragResizeWidget) (e : PEvent)
    (hw : 100 ≤ s.w) (hh : 100 ≤ s.h) :
    100 ≤ (s.step e).w ∧ 100 ≤ (s.step e).h := by
  cases e with
  | press b p g =>
    simp only [DragResizeWidget.step, DragResizeWidget.mousePressEvent]
    split_ifs <;> exact ⟨hw, hh⟩
  | move p g =>
    simp only [DragResizeWidget.step, DragResizeWidget.mouseMoveEvent]
    split_ifs with h1 h2
    · exact ⟨hw, hh⟩
    · exact ⟨le_max_left _ _, le_max_left _ _⟩
    · exact ⟨hw, hh⟩
  | release => exact ⟨hw, hh⟩

/-- Any event sequence keeps both size components at or above 100. -/
theorem run_size_floor (evts : List PEvent) (s : DragResizeWidget)
    (hw : 100 ≤ s.w) (hh : 100 ≤ s.h) :
    100 ≤ (s.run evts).w ∧ 100 ≤ (s.run evts).h := by
  induction evts generalizing s with
  | nil => exact ⟨hw, hh⟩
  | cons e rest ih =>
    have h := step_size_floor s e hw hh
    exact ih (s.step e) h.1 h.2

/-! ## Claims -/

/-- C3: for every sequence of pointer events applied to a freshly constructed
surface (initial size 800×600), the width and height stay at or above 100 —
for any pointer coordinates, including negative or arbitrarily large ones,
because the resize branch sets `w = max 100 pos.x` and `h = max 100 pos.y`
and no other branch changes the size. -/
theorem C3_size_always_at_least_100 (x y : Int) (evts : List PEvent) :
    100 ≤ ((DragResizeWidget.mkConcrete x y).run evts).w ∧
    100 ≤ ((DragResizeWidget.mkConcrete x y).run evts).h :=
  run_size_floor evts (DragResizeWidget.mkConcrete x y)
    (by show (100 : Int) ≤ 800; norm_num) (by show (100 : Int) ≤ 600; norm_num)

/-- C10: a pointer-down with any button other than the left one leaves the
whole widget state unchanged — `dragging`, `resizing`, `drag_position`,
origin and size all keep their prior values. -/
theorem C10_nonleft_press_is_noop (s : DragResizeWidget) (b : MouseButton)
    (pos gpos : Int × Int) (h : b ≠ MouseButton.left) :
    s.mousePressEvent b pos gpos = s := by
  simp [DragResizeWidget.mousePressEvent, h]

/-- C10 witness: a right-button press on a fresh widget is the identity. -/
theorem C10_nonleft_press_is_noop_witness :
    MouseButton.right ≠ MouseButton.left ∧
      (DragResizeWidget.mkConcrete 150 150).mousePressEvent MouseButton.right
        (795, 595) (945, 745) = DragResizeWidget.mkConcrete 150 150 :=
  ⟨by decide,
   C10_nonleft_press_is_noop (DragResizeWidget.mkConcrete 150 150) MouseButton.right
     (795, 595) (945, 745) (by decide)⟩

/-- C9: media classification is case-insensitive on the extension — the
extension is lowercased before matching, so any extension that case-folds into
the image set yields an image payload, any that case-folds into the video set
yields a video payload, and any other extension yields no media surface. -/
theorem C9_classification_case_insensitive (ext : String) :
    (pyLower ext ∈ imageExts → setup_media_classify ext = some MediaKind.image) ∧
    (pyLower ext ∈ videoExts → setup_media_classify ext = some MediaKind.video) ∧
    (pyLower ext ∉ imageExts → pyLower ext ∉ videoExts →
      setup_media_classify ext = none) := by
  refine ⟨fun h => ?_, fun h => ?_, fun h1 h2 => ?_⟩
  · simp [setup_media_classify, h]
  · have h' : pyLower ext ∉ imageExts := by
      simp only [imageExts, videoExts, List.mem_cons, List.not_mem_nil, or_false] at h ⊢
      rcases h with h | h | h <;> rw [h] <;> decide
    simp [setup_media_classify, h, h']
  · simp [setup_media_classify, h1, h2]

/-- C9 witness: `.PNG` is classified as an image, `.Mp4` as a video, and
`.gif` yields no media surface. -/
theorem C9_classification_case_insensitive_witness :
    (pyLower ".PNG" ∈ imageExts ∧ setup_media_classify ".PNG" = some MediaKind.image) ∧
    (pyLower ".Mp4" ∈ videoExts ∧ setup_media_classify ".Mp4" = some MediaKind.video) ∧
    (pyLower ".gif" ∉ imageExts ∧ pyLower ".gif" ∉ videoExts ∧
      setup_media_classify ".gif" = none) :=
  ⟨⟨by decide, (C9_classification_case_insensitive ".PNG").1 (by decide)⟩,
   ⟨by decide, (C9_classification_case_insensitive ".Mp4").2.1 (by decide)⟩,
   ⟨by decide, by decide,
    (C9_classification_case_insensitive ".gif").2.2 (by decide) (by decide)⟩⟩

/-- C8: at shell construction the media surface is stacked under the content
surface exactly once, and only when both exist; with at most one surface no
stacking effect is emitted; and no key handled by the running shell ever emits
a stacking effect, so the order is never re-evaluated afterwards. -/
theorem C8_stack_fixed_once {α : Type} (m b : α) (browserOpt : Option α) :
    fullScreenAppInitEffects (some m) (some b) = [ShellEffect.stackUnder m b] ∧
    fullScreenAppInitEffects (some m) (none : Option α) = [] ∧
    fullScreenAppInitEffects (none : Option α) (some b) = [] ∧
    fullScreenAppInitEffects (none : Option α) (none : Option α) = [] ∧
    (∀ (k : ShellKey) (below above : α),
      ShellEffect.stackUnder below above ∉ fullScreenAppKeyPressEvent browserOpt k) := by
  refine ⟨rfl, rfl, rfl, rfl, fun k below above => ?_⟩
  cases k <;> cases browserOpt <;> simp [fullScreenAppKeyPressEvent]

/-- C8 witness: with both surfaces present the construction effects are the
single stacking call; with only a media surface they are empty; a reload key
emits no stacking effect. -/
theorem C8_stack_fixed_once_witness :
    fullScreenAppInitEffects (some 0) (some 1) = [ShellEffect.stackUnder 0 1] ∧
    fullScreenAppInitEffects (some 0) (none : Option Nat) = [] ∧
    ShellEffect.stackUnder 0 1 ∉ fullScreenAppKeyPressEvent (some 1) ShellKey.f5 :=
  ⟨(C8_stack_fixed_once 0 1 (some 1)).1,
   (C8_stack_fixed_once 0 1 (some 1)).2.1,
   (C8_stack_fixed_once 0 1 (some 1)).2.2.2.2 ShellKey.f5 0 1⟩

/-- C5: a pointer move in the Dragging state translates the origin by
`delta = gpos - drag_position` and then records `gpos` as the new
`drag_position` (relative movement); in the Idle state a pointer move changes
nothing at all. -/
theorem C5_move_relative_in_drag_noop_in_idle (s : DragResizeWidget)
    (pos gpos : Int × Int) :
    (s.dragging = true →
      s.mouseMoveEvent pos gpos =
        { s with x := s.x + (gpos.1 - s.drag_position.1),
                 y := s.y + (gpos.2 - s.drag_position.2),
                 drag_position := gpos }) ∧
    (s.dragging = false → s.resizing = false → s.mouseMoveEvent pos gpos = s) := by
  constructor
  · intro h
    simp [DragResizeWidget.mouseMoveEvent, h]
  · intro h1 h2
    simp [DragResizeWidget.mouseMoveEvent, h1, h2]

/-- C5 witness: a concrete Dragging state moves by the delta `(90, 140)` and
updates `drag_position`; a fresh Idle widget is unchanged by a move. -/
theorem C5_move_relative_in_drag_noop_in_idle_witness :
    ((DragResizeWidget.mkConcrete 150 150).mousePressEvent MouseButton.left
        (400, 300) (410, 310)).dragging = true ∧
    ((DragResizeWidget.mkConcrete 150 150).mousePressEvent MouseButton.left
        (400, 300) (410, 310)).mouseMoveEvent (0, 0) (500, 450)
      = { x := 240, y := 290, w := 800, h := 600, dragging := true, resizing := false,
          drag_position := (500, 450), geomCalls := [(5, 5, 790, 590)] } ∧
    ((DragResizeWidget.mkConcrete 150 150).dragging = false ∧
      (DragResizeWidget.mkConcrete 150 150).resizing = false ∧
      (DragResizeWidget.mkConcrete 150 150).mouseMoveEvent (3, 4) (700, 700)
        = DragResizeWidget.mkConcrete 150 150) :=
  ⟨by decide,
   (C5_move_relative_in_drag_noop_in_idle
      ((DragResizeWidget.mkConcrete 150 150).mousePressEvent MouseButton.left
        (400, 300) (410, 310)) (0, 0) (500, 450)).1 (by decide),
   by decide, by decide,
   (C5_move_relative_in_drag_noop_in_idle
      (DragResizeWidget.mkConcrete 150 150) (3, 4) (700, 700)).2 (by decide) (by decide)⟩

/-- C4: the content-geometry callback records exactly `(5, 5, w-10, h-10)`: it
is called once at construction with the initial size, and after every move
handled in the Resizing state (with the new size); it is not called on drag
moves, idle moves, presses or releases. -/
theorem C4_geometry_callback_inset (xw yw : Int) (s : DragResizeWidget)
    (b : MouseButton) (pos gpos : Int × Int) :
    (DragResizeWidget.mkConcrete xw yw).geomCalls = [(5, 5, 790, 590)] ∧
    (s.dragging = false → s.resizing = true →
      (s.mouseMoveEvent pos gpos).geomCalls
        = (5, 5, (s.mouseMoveEvent pos gpos).w - 10,
            (s.mouseMoveEvent pos gpos).h - 10) :: s.geomCalls) ∧
    (s.dragging = true → (s.mouseMoveEvent pos gpos).geomCalls = s.geomCalls) ∧
    (s.dragging = false → s.resizing = false →
      (s.mouseMoveEvent pos gpos).geomCalls = s.geomCalls) ∧
    (s.mousePressEvent b pos gpos).geomCalls = s.geomCalls ∧
    s.mouseReleaseEvent.geomCalls = s.geomCalls := by
  refine ⟨?_, fun h1 h2 => ?_, fun h => ?_, fun h1 h2 => ?_, ?_, ?_⟩
  · rfl
  · simp [DragResizeWidget.mouseMoveEvent, DragResizeWidget.update_content_geometry, h1, h2]
  · simp [DragResizeWidget.mouseMoveEvent, h]
  · simp [DragResizeWidget.mouseMoveEvent, h1, h2]
  · simp only [DragResizeWidget.mousePressEvent]
    split_ifs <;> rfl
  · rfl

/-- C4 witness: construction logs the initial inset; a move in a concrete
Resizing state logs `(5, 5, 290, 190)` for the new size 300×200; a move in a
concrete Dragging state and a move in Idle log nothing. -/
theorem C4_geometry_callback_inset_witness :
    (DragResizeWidget.mkConcrete 150 150).geomCalls = [(5, 5, 790, 590)] ∧
    (((DragResizeWidget.mkConcrete 150 150).mousePressEvent MouseButton.left
        (795, 595) (945, 745)).dragging = false ∧
     ((DragResizeWidget.mkConcrete 150 150).mousePressEvent MouseButton.left
        (795, 595) (945, 745)).resizing = true ∧
     (((DragResizeWidget.mkConcrete 150 150).mousePressEvent MouseButton.left
        (795, 595) (945, 745)).mouseMoveEvent (300, 200) (450, 350)).geomCalls
       = [(5, 5, 290, 190), (5, 5, 790, 590)]) ∧
    (((DragResizeWidget.mkConcrete 150 150).mousePressEvent MouseButton.left
        (400, 300) (410, 310)).dragging = true ∧
     (((DragResizeWidget.mkConcrete 150 150).mousePressEvent MouseButton.left
        (400, 300) (410, 310)).mouseMoveEvent (7, 8) (500, 450)).geomCalls
       = [(5, 5, 790, 590)]) :=
  ⟨(C4_geometry_callback_inset 150 150 (DragResizeWidget.mkConcrete 150 150)
      MouseButton.left (0, 0) (0, 0)).1,
   ⟨by decide, by decide,
    (C4_geometry_callback_inset 150 150
       ((DragResizeWidget.mkConcrete 150 150).mousePressEvent MouseButton.left
         (795, 595) (945, 745)) MouseButton.left (300, 200) (450, 350)).2.1
      (by decide) (by decide)⟩,
   ⟨by decide,
    (C4_geometry_callback_inset 150 150
       ((DragResizeWidget.mkConcrete 150 150).mousePressEvent MouseButton.left
         (400, 300) (410, 310)) MouseButton.left (7, 8) (500, 450)).2.2.1 (by decide)⟩⟩

/-- C2 counterexample: `mousePressEvent` has no Idle guard.  After one left
press the widget is not Idle (it is Dragging), yet a second left press is not
a no-op: it overwrites `drag_position`. -/
theorem C2_press_counterexample :
    ¬ ((DragResizeWidget.mkConcrete 150 150).mousePressEvent MouseButton.left
        (400, 300) (550, 450)).isIdle ∧
    ((DragResizeWidget.mkConcrete 150 150).mousePressEvent MouseButton.left
        (400, 300) (550, 450)).mousePressEvent MouseButton.left (200, 100) (350, 250)
      ≠ (DragResizeWidget.mkConcrete 150 150).mousePressEvent MouseButton.left
        (400, 300) (550, 450) := by
  constructor
  · intro h
    exact absurd h.1 (by decide)
  · decide

/-- C2 (amended): a left-button press applies unconditionally, with no Idle
guard — in any state, if `pos.x ≥ width-10` and `pos.y ≥ height-10` it sets
`resizing`, otherwise it sets `dragging` and records the global position as
`drag_position`; from the initial 800×600 state, `(795, 595)` enters Resizing
and `(400, 300)` enters Dragging. -/
theorem C2_press_transitions (s : DragResizeWidget) (pos gpos : Int × Int) :
    (s.w - 10 ≤ pos.1 → s.h - 10 ≤ pos.2 →
      s.mousePressEvent MouseButton.left pos gpos = { s with resizing := true }) ∧
    (¬ (s.w - 10 ≤ pos.1 ∧ s.h - 10 ≤ pos.2) →
      s.mousePressEvent MouseButton.left pos gpos
        = { s with dragging := true, drag_position := gpos }) ∧
    ((DragResizeWidget.mkConcrete 150 150).mousePressEvent MouseButton.left
        (795, 595) (945, 745)).resizing = true ∧
    ((DragResizeWidget.mkConcrete 150 150).mousePressEvent MouseButton.left
        (400, 300) (450, 350)).dragging = true := by
  refine ⟨fun h1 h2 => ?_, fun h => ?_, by decide, by decide⟩
  · have hb : s.is_on_border pos = true := by
      simp only [DragResizeWidget.is_on_border, decide_eq_true_eq]
      exact ⟨h1, h2⟩
    simp [DragResizeWidget.mousePressEvent, hb]
  · have hb : s.is_on_border pos = false := by
      simp only [DragResizeWidget.is_on_border, decide_eq_false_iff_not]
      exact h
    simp [DragResizeWidget.mousePressEvent, hb]

/-- C2 witness: the two press behaviors at concrete inputs — a border press
from the fresh 800×600 widget sets `resizing`; an interior press sets
`dragging` and records the global position. -/
theorem C2_press_transitions_witness :
    ((800 : Int) - 10 ≤ 795 ∧ (600 : Int) - 10 ≤ 595 ∧
      (DragResizeWidget.mkConcrete 150 150).mousePressEvent MouseButton.left
        (795, 595) (945, 745)
        = { DragResizeWidget.mkConcrete 150 150 with resizing := true }) ∧
    (¬ ((800 : Int) - 10 ≤ 400 ∧ (600 : Int) - 10 ≤ 300) ∧
      (DragResizeWidget.mkConcrete 150 150).mousePressEvent MouseButton.left
        (400, 300) (450, 350)
        = { DragResizeWidget.mkConcrete 150 150 with
              dragging := true, drag_position := (450, 350) }) :=
  ⟨⟨by decide, by decide,
    (C2_press_transitions (DragResizeWidget.mkConcrete 150 150) (795, 595) (945, 745)).1
      (by decide) (by decide)⟩,
   ⟨by decide,
    (C2_press_transitions (DragResizeWidget.mkConcrete 150 150) (400, 300) (450, 350)).2.1
      (by decide)⟩⟩

/-- A pointer move never changes the two interaction flags. -/
theorem mouseMoveEvent_flags (s : DragResizeWidget) (pos gpos : Int × Int) :
    (s.mouseMoveEvent pos gpos).dragging = s.dragging ∧
    (s.mouseMoveEvent pos gpos).resizing = s.resizing := by
  simp only [DragResizeWidget.mouseMoveEvent]
  split_ifs <;> simp [DragResizeWidget.update_content_geometry]

/-- Invariant carrier for C1: along a well-formed event sequence (no press
while the button is already down), if the widget is Idle whenever the button
is up and its flags are not both true, then its flags never become both
true. -/
theorem run_flags_exclusive (evts : List PEvent) (down : Bool) (s : DragResizeWidget)
    (hwf : wellFormedEvents down evts = true)
    (hdown : down = false → (s.dragging = false ∧ s.resizing = false))
    (hex : s.dragging = false ∨ s.resizing = false) :
    (s.run evts).dragging = false ∨ (s.run evts).resizing = false := by
  induction evts generalizing down s with
  | nil => exact hex
  | cons e rest ih =>
    have hrun : s.run (e :: rest) = (s.step e).run rest := rfl
    rw [hrun]
    cases e with
    | press b p g =>
      simp only [wellFormedEvents, Bool.and_eq_true, Bool.not_eq_true'] at hwf
      obtain ⟨hd, hwf'⟩ := hwf
      obtain ⟨hd1, hd2⟩ := hdown hd
      have hex' : (s.step (PEvent.press b p g)).dragging = false ∨
          (s.step (PEvent.press b p g)).resizing = false := by
        simp only [DragResizeWidget.step, DragResizeWidget.mousePressEvent]
        split_ifs <;> simp [hd1, hd2]
      exact ih true (s.step (PEvent.press b p g)) hwf'
        (fun hf => absurd hf (by decide)) hex'
    | move p g =>
      simp only [wellFormedEvents] at hwf
      have hflags := mouseMoveEvent_flags s p g
      have hdown' : down = false →
          (s.step (PEvent.move p g)).dragging = false ∧
          (s.step (PEvent.move p g)).resizing = false := by
        intro hf
        obtain ⟨h1, h2⟩ := hdown hf
        exact ⟨hflags.1.trans h1, hflags.2.trans h2⟩
      have hex' : (s.step (PEvent.move p g)).dragging = false ∨
          (s.step (PEvent.move p g)).resizing = false := by
        rcases hex with h1 | h1
        · exact Or.inl (hflags.1.trans h1)
        · exact Or.inr (hflags.2.trans h1)
      exact ih down (s.step (PEvent.move p g)) hwf hdown' hex'
    | release =>
      simp only [wellFormedEvents] at hwf
      exact ih false (s.step PEvent.release) hwf (fun _ => ⟨rfl, rfl⟩) (Or.inl rfl)

/-- C1 counterexample: the claim quantifies over every sequence of pointer
events, but two consecutive left presses (the widget's press handler has no
Idle guard) drive a fresh widget into a state with `dragging` and `resizing`
both true — none of the three interaction states. -/
theorem C1_counterexample :
    (((DragResizeWidget.mkConcrete 150 150).run
        [PEvent.press MouseButton.left (300, 200) (450, 350),
         PEvent.press MouseButton.left (795, 595) (945, 745)]).dragging = true ∧
     ((DragResizeWidget.mkConcrete 150 150).run
        [PEvent.press MouseButton.left (300, 200) (450, 350),
         PEvent.press MouseButton.left (795, 595) (945, 745)]).resizing = true) ∧
    ((DragResizeWidget.mkConcrete 150 150).run
        [PEvent.press MouseButton.left (300, 200) (450, 350),
         PEvent.press MouseButton.left (795, 595) (945, 745)]).interactionState
      = none := by
  decide

/-- C1 (amended): for every well-formed sequence of pointer events — one in
which no pointer-down is delivered while the button is already down, which is
every sequence a windowing system produces — the widget starting from its
initial state is always in exactly one of the three interaction states: the
flags are never both true, and the flag pair always denotes a state. -/
theorem C1_exactly_one_state (x y : Int) (evts : List PEvent)
    (h : wellFormedEvents false evts = true) :
    ¬ (((DragResizeWidget.mkConcrete x y).run evts).dragging = true ∧
       ((DragResizeWidget.mkConcrete x y).run evts).resizing = true) ∧
    ((DragResizeWidget.mkConcrete x y).run evts).interactionState.isSome = true := by
  have hex := run_flags_exclusive evts false (DragResizeWidget.mkConcrete x y) h
    (fun _ => ⟨rfl, rfl⟩) (Or.inl rfl)
  refine ⟨fun hc => ?_, ?_⟩
  · rcases hex with h1 | h1
    · exact Bool.false_ne_true (h1 ▸ hc.1)
    · exact Bool.false_ne_true (h1 ▸ hc.2)
  · cases hd : ((DragResizeWidget.mkConcrete x y).run evts).dragging
      <;> cases hr : ((DragResizeWidget.mkConcrete x y).run evts).resizing
      <;> simp [DragResizeWidget.interactionState, hd, hr]
    rcases hex with h1 | h1
    · exact Bool.noConfusion (hd.symm.trans h1)
    · exact Bool.noConfusion (hr.symm.trans h1)

/-- C1 witness: a drag gesture followed by a resize gesture is well formed,
and after it the flags are not both true and the interaction state is one of
the three. -/
theorem C1_exactly_one_state_witness :
    wellFormedEvents false
      [PEvent.press MouseButton.left (300, 200) (450, 350),
       PEvent.move (350, 250) (500, 400), PEvent.release,
       PEvent.press MouseButton.left (795, 595) (945, 745),
       PEvent.move (400, 300) (550, 450), PEvent.release] = true ∧
    (¬ (((DragResizeWidget.mkConcrete 150 150).run
          [PEvent.press MouseButton.left (300, 200) (450, 350),
           PEvent.move (350, 250) (500, 400), PEvent.release,
           PEvent.press MouseButton.left (795, 595) (945, 745),
           PEvent.move (400, 300) (550, 450), PEvent.release]).dragging = true ∧
        ((DragResizeWidget.mkConcrete 150 150).run
          [PEvent.press MouseButton.left (300, 200) (450, 350),
           PEvent.move (350, 250) (500, 400), PEvent.release,
           PEvent.press MouseButton.left (795, 595) (945, 745),
           PEvent.move (400, 300) (550, 450), PEvent.release]).resizing = true) ∧
      ((DragResizeWidget.mkConcrete 150 150).run
          [PEvent.press MouseButton.left (300, 200) (450, 350),
           PEvent.move (350, 250) (500, 400), PEvent.release,
           PEvent.press MouseButton.left (795, 595) (945, 745),
           PEvent.move (400, 300) (550, 450), PEvent.release]).interactionState.isSome
        = true) :=
  ⟨by decide,
   C1_exactly_one_state 150 150
     [PEvent.press MouseButton.left (300, 200) (450, 350),
      PEvent.move (350, 250) (500, 400), PEvent.release,
      PEvent.press MouseButton.left (795, 595) (945, 745),
      PEvent.move (400, 300) (550, 450), PEvent.release] (by decide)⟩

/-- `readUrlsLoop` yields the urls collected so far followed by the
first-occurrence selection (relative to `seen`) of the stripped non-blank
remaining lines. -/
theorem readUrlsLoop_eq_keepFirsts (lines : List String) (urls seen : List String) :
    readUrlsLoop urls seen lines
      = urls ++ keepFirsts seen ((lines.map pyStrip).filter (fun u => !(u == ""))) := by
  induction lines generalizing urls seen with
  | nil => simp [readUrlsLoop, keepFirsts]
  | cons line rest ih =>
    by_cases hu : pyStrip line = ""
    · simp [readUrlsLoop, List.filter_cons, hu, ih]
    · by_cases hs : pyStrip line ∈ seen
      · simp [readUrlsLoop, List.filter_cons, hu, hs, keepFirsts, ih]
      · simp [readUrlsLoop, List.filter_cons, hu, hs, keepFirsts, ih]

/-- C7: `read_urls_from_config` returns exactly the spec-side `listAllSpec`:
the non-blank stripped lines with duplicates collapsed, the first occurrence
winning and first-appearance order preserved; on the file
`https://x.com`, blank, `https://x.com`, `https://y.com` it returns the two
distinct addresses in first-seen order. -/
theorem C7_listAll_first_occurrence_order :
    (∀ lines : List String, read_urls_from_config lines = listAllSpec lines) ∧
    read_urls_from_config ["https://x.com", "", "https://x.com", "https://y.com"]
      = ["https://x.com", "https://y.com"] := by
  constructor
  · intro lines
    simpa [read_urls_from_config, listAllSpec] using readUrlsLoop_eq_keepFirsts lines [] []
  · decide

/-- C6: `add_url` is a silent no-op (file and in-memory list both unchanged)
when the address is already present or empty, and otherwise appends the
address to both; adding `https://a.com` twice starting from an empty store
leaves `listAll` with exactly one occurrence of it. -/
theorem C6_add_noop_on_duplicate_or_empty (st : AddressStore) (a : String) :
    (st.urls = read_urls_from_config st.fileLines → a ∈ st.urls →
      st.add_url a = st) ∧
    st.add_url "" = st ∧
    (st.urls = read_urls_from_config st.fileLines → a ∉ st.urls → a ≠ "" →
      (st.add_url a).fileLines = st.fileLines ++ [a] ∧
      (st.add_url a).urls = st.urls ++ [a]) ∧
    ((AddressStore.add_url (AddressStore.add_url (AddressStore.mk [] [])
        "https://a.com") "https://a.com").listAll = ["https://a.com"] ∧
     (AddressStore.add_url (AddressStore.add_url (AddressStore.mk [] [])
        "https://a.com") "https://a.com").listAll.count "https://a.com" = 1) := by
  refine ⟨fun hsync hmem => ?_, ?_, fun hsync hmem hne => ?_, by decide, by decide⟩
  · have hmem' : a ∈ read_urls_from_config st.fileLines := hsync ▸ hmem
    by_cases ha : a = ""
    · simp [AddressStore.add_url, ha]
    · simp [AddressStore.add_url, write_url_to_config, ha, hmem, hmem']
  · simp [AddressStore.add_url]
  · have hmem' : a ∉ read_urls_from_config st.fileLines := by
      rw [← hsync]; exact hmem
    constructor <;> simp [AddressStore.add_url, write_url_to_config, hne, hmem, hmem']

/-- C6 witness: adding an already-present address and adding the empty string
are both identities on a concrete store; adding a fresh address appends it to
the file and the in-memory list. -/
theorem C6_add_noop_on_duplicate_or_empty_witness :
    ((AddressStore.mk ["https://a.com"] ["https://a.com"]).urls
        = read_urls_from_config ["https://a.com"] ∧
      "https://a.com" ∈ (AddressStore.mk ["https://a.com"] ["https://a.com"]).urls ∧
      (AddressStore.mk ["https://a.com"] ["https://a.com"]).add_url "https://a.com"
        = AddressStore.mk ["https://a.com"] ["https://a.com"]) ∧
    (AddressStore.mk ["https://b.com"] ["https://b.com"]).add_url ""
        = AddressStore.mk ["https://b.com"] ["https://b.com"] ∧
    ((AddressStore.mk [] []).urls = read_urls_from_config [] ∧
      "https://c.com" ∉ (AddressStore.mk [] []).urls ∧
      "https://c.com" ≠ "" ∧
      ((AddressStore.mk [] []).add_url "https://c.com").fileLines = ["https://c.com"] ∧
      ((AddressStore.mk [] []).add_url "https://c.com").urls = ["https://c.com"]) :=
  ⟨⟨by decide, by decide,
    (C6_add_noop_on_duplicate_or_empty
       (AddressStore.mk ["https://a.com"] ["https://a.com"]) "https://a.com").1
      (by decide) (by decide)⟩,
   (C6_add_noop_on_duplicate_or_empty
      (AddressStore.mk ["https://b.com"] ["https://b.com"]) "x").2.1,
   ⟨by decide, by decide, by decide,
    ((C6_add_noop_on_duplicate_or_empty (AddressStore.mk [] []) "https://c.com").2.2.1
       (by decide) (by decide) (by decide)).1,
    ((C6_add_noop_on_duplicate_or_empty (AddressStore.mk [] []) "https://c.com").2.2.1
       (by decide) (by decide) (by decide)).2⟩⟩
